import Mathlib

/-!
Verification of the `cccxg/socks4` SOCKS 4/4A proxy server.

The embedding models Go byte slices as `List Nat` (each element a byte
value below 256) and Go strings, which are raw byte sequences, likewise
as `List Nat`.  Fallible Go functions returning `(T, error)` become
`Except`-valued Lean functions.  The network-facing parts of the server
(`establishProxy`, `establishConnect`, `establishBind`) are embedded as
pure functions over an explicit environment that records the outcome of
each network primitive (the bytes produced by the single `conn.Read`,
whether `net.Dial` succeeds, whether the inbound BIND connection arrives
before the 120-second timer closes the listener, and the outcome of each
`conn.Write`); the model records the number of reads performed, the bytes
handed to the request parser, the sequence of messages written to the
client, and the final outcome of the session, including the possibility
of a Go runtime panic from calling `Close` on a nil `net.Conn`.
-/

namespace Socks4

/-- Protocol version byte, from the source constant `Version4`. -/
def Version4 : Nat := 0x04

/-- CONNECT command byte, from the source constant `CmdConnect`. -/
def CmdConnect : Nat := 0x01

/-- BIND command byte, from the source constant `CmdBind`. -/
def CmdBind : Nat := 0x02

/-- Reply code: request granted (source constant `Granted`). -/
def Granted : Nat := 0x5a

/-- Reply code: request rejected or failed (source constant `RejectOrFailure`). -/
def RejectOrFailure : Nat := 0x5b

/-- Reply code: no identd on client (source constant `RejectNoIdentd`). -/
def RejectNoIdentd : Nat := 0x5c

/-- Reply code: identd user id mismatch (source constant `RejectWrongUserId`). -/
def RejectWrongUserId : Nat := 0x5d

/-- NUL separator byte (source constant `NullByte`). -/
def NullByte : Nat := 0x00

/-- Decimal representation of a natural number as a list of ASCII bytes,
embedding Go's `strconv.Itoa` on non-negative values. -/
def itoaBytes (n : Nat) : List Nat :=
  (Nat.repr n).data.map Char.toNat

/-- Dotted-decimal rendering of four IPv4 octets as ASCII bytes, embedding
`net.IPv4(a, b, c, d).String()` for byte-valued arguments. -/
def ipv4String (a b c d : Nat) : List Nat :=
  itoaBytes a ++ [46] ++ itoaBytes b ++ [46] ++ itoaBytes c ++ [46] ++ itoaBytes d

/-- A SOCKS request, embedding the source structure `Request`.
Go strings are byte sequences, so `Address` and `UserId` are byte lists. -/
structure Request where
  Version : Nat
  Cmd : Nat
  Port : Nat
  Address : List Nat
  IsV4A : Bool
  UserId : List Nat
deriving Repr, DecidableEq

/-- The distinct error values produced by `ParseRequest` in the source:
`invalid SOCKS 4 request`, `invalid SOCKS request VN`,
`invalid SOCKS request CD` and `invalid SOCKS 4A request`. -/
inductive ParseError where
  | MalformedRequest
  | UnsupportedVersion
  | UnsupportedCommand
  | MalformedExtendedRequest
deriving Repr, DecidableEq

/-- Embedding of the source function `ParseRequest`.  Indexing `b[0]` …
`b[7]` is rendered as a pattern match (the length guard makes the
fall-through case unreachable); `b[8:]` is `rest`; `bytes.Split` on the
NUL byte is `List.splitOn 0`; `b[8 : n-1]` is `rest.dropLast`;
`binary.BigEndian.Uint16 (b[2:4])` is `b2 * 256 + b3`. -/
def ParseRequest (b : List Nat) : Except ParseError Request :=
  if b.length < 9 then .error .MalformedRequest
  else
    match b with
    | b0 :: b1 :: b2 :: b3 :: b4 :: b5 :: b6 :: b7 :: rest =>
      if b0 ≠ Version4 then .error .UnsupportedVersion
      else if b1 ≠ CmdConnect ∧ b1 ≠ CmdBind then .error .UnsupportedCommand
      else
        let port := b2 * 256 + b3
        if b4 = 0 ∧ b5 = 0 ∧ b6 = 0 ∧ b7 ≠ 0 then
          let bs := rest.splitOn NullByte
          if bs.length ≠ 3 then .error .MalformedExtendedRequest
          else .ok { Version := Version4, Cmd := b1, Port := port,
                     Address := bs.getD 1 [] ++ [58] ++ itoaBytes port,
                     IsV4A := true, UserId := bs.getD 0 [] }
        else
          .ok { Version := Version4, Cmd := b1, Port := port,
                Address := ipv4String b4 b5 b6 b7 ++ [58] ++ itoaBytes port,
                IsV4A := false, UserId := rest.dropLast }
    | _ => .error .MalformedRequest

/-- A server reply, embedding the source structure `Reply`.  The `Port`
field is a Go `int`, hence `Int` here; `IP` is a `net.IP` byte slice
(the empty list embeds the nil IP). -/
structure Reply where
  Cd : Nat
  Port : Int
  IP : List Nat
deriving Repr, DecidableEq

/-- Embedding of Go's `net.IP.To4`: a 4-byte address is returned as is, a
16-byte IPv4-mapped-IPv6 address is narrowed to its last 4 bytes, and
anything else (including nil) yields nil, embedded as the empty list. -/
def To4 (ip : List Nat) : List Nat :=
  if ip.length = 4 then ip
  else if ip.length = 16 ∧ ip.take 12 = [0, 0, 0, 0, 0, 0, 0, 0, 0, 0, 255, 255] then
    ip.drop 12
  else []

/-- The reply-code normalization performed inside `Reply.ToBytes`: any
code outside the four defined reply codes is replaced by
`RejectOrFailure`. -/
def sanitizeCd (cd : Nat) : Nat :=
  if cd ≠ Granted ∧ cd ≠ RejectOrFailure ∧ cd ≠ RejectNoIdentd ∧ cd ≠ RejectWrongUserId
  then RejectOrFailure else cd

/-- Embedding of the source method `Reply.ToBytes`: a leading zero byte,
the normalized reply code, the port truncated to `uint16` and appended
big-endian, then the bytes of `IP.To4()` (which appends nothing when
`To4` returns nil). -/
def Reply.ToBytes (r : Reply) : List Nat :=
  let p := (r.Port % 65536).toNat
  [0, sanitizeCd r.Cd] ++ [p / 256, p % 256] ++ To4 r.IP

/-- The bytes of the `Reply{Cd: RejectOrFailure}` reply that
`establishProxy` writes after a CONNECT or BIND establishment failure. -/
def rejectReplyBytes : List Nat :=
  Reply.ToBytes { Cd := RejectOrFailure, Port := 0, IP := [] }

/-- The bytes of the first BIND reply
`Reply{Cd: Granted, Port: addr.Port}` written by `establishBind` (its
`IP` field is nil). -/
def bindFirstReplyBytes (boundPort : Int) : List Nat :=
  Reply.ToBytes { Cd := Granted, Port := boundPort, IP := [] }

/-- The BIND wait limit in seconds: `establishBind` starts a timer
goroutine that closes the listener after `120 * time.Second`. -/
def bindTimeoutSeconds : Nat := 120

/-- Environment of one session: the outcome of each network primitive
the handler may invoke, in program order. -/
structure Env where
  /-- Bytes available to the single `conn.Read` into the 41-byte buffer:
  `none` embeds a read error, `some chunk` the first fragment the
  transport delivers (the read returns at most 41 of its bytes). -/
  firstRead : Option (List Nat)
  /-- Whether `net.Dial` in `establishConnect` succeeds. -/
  dialOk : Bool
  /-- Whether `net.Listen` in `establishBind` succeeds. -/
  listenOk : Bool
  /-- Whether `net.ResolveTCPAddr` on the bind listener address succeeds. -/
  bindResolveOk : Bool
  /-- Port of the bind listener address. -/
  boundPort : Int
  /-- Whether the write of the first BIND reply succeeds. -/
  firstReplyWriteOk : Bool
  /-- Whether an inbound connection arrives before the
  `bindTimeoutSeconds` timer closes the listener; when it does not, the
  `lis.Accept` call fails. -/
  inboundArrives : Bool
  /-- Whether the write of the reject reply (after an establishment
  failure) succeeds. -/
  rejectWriteOk : Bool
  /-- Whether `net.ResolveTCPAddr` on the remote's local address succeeds. -/
  resolveOk : Bool
  /-- Port of the remote connection's local address. -/
  remotePort : Int
  /-- IPv4 bytes of the remote connection's local address, as produced by
  `net.ParseIP(addr.IP.String()).To4()`. -/
  remoteIP : List Nat
  /-- Whether the write of the final granted reply succeeds. -/
  grantedWriteOk : Bool
deriving Repr

/-- Errors surfaced by `establishBind` in the source: the `net.Listen`
error, the `net.ResolveTCPAddr` error, the first-reply write error, and
the `lis.Accept` error (in particular after the 120-second timer closed
the listener). -/
inductive BindErr where
  | listenFailed
  | resolveFailed
  | firstReplyWriteFailed
  | acceptFailed
deriving Repr, DecidableEq

/-- Errors returned by `establishProxy` in the source, one per
`return nil, err` site. -/
inductive ProxyErr where
  | readFailed
  | parseFailed (e : ParseError)
  | replyWriteFailed
  | connectFailed
  | bindFailed
  | unexpectedCommand
  | resolveFailed
  | grantedWriteFailed
deriving Repr, DecidableEq

/-- Final outcome of `establishProxy`: success, an error return, or a Go
runtime panic caused by calling `Close` on a nil `net.Conn` (a panic in
the `go s.handleConn(conn)` goroutine, with no `recover` anywhere in the
package, terminates the whole process). -/
inductive Outcome where
  | ok
  | err (e : ProxyErr)
  | crashed
deriving Repr, DecidableEq

/-- Observable result of one session: how many `conn.Read` calls were
performed, which bytes were handed to `ParseRequest`, the messages
written to the client connection in order, and the final outcome. -/
structure ProxyResult where
  reads : Nat
  parsedFrom : Option (List Nat)
  clientWrites : List (List Nat)
  outcome : Outcome
deriving Repr, DecidableEq

/-- Embedding of the source function `establishBind`: listen on an
ephemeral port, resolve its address, write the first granted reply
(with nil IP), then accept, which fails if no inbound connection
arrives before the timer closes the listener.  Returns the messages
written to the client together with the outcome. -/
def establishBindModel (env : Env) : List (List Nat) × Except BindErr Unit :=
  if ¬ env.listenOk then ([], .error .listenFailed)
  else if ¬ env.bindResolveOk then ([], .error .resolveFailed)
  else
    let firstReply := bindFirstReplyBytes env.boundPort
    if ¬ env.firstReplyWriteOk then ([firstReply], .error .firstReplyWriteFailed)
    else if ¬ env.inboundArrives then ([firstReply], .error .acceptFailed)
    else ([firstReply], .ok ())

/-- The tail of `establishProxy` shared by both commands after a remote
connection exists: resolve the remote's local address, build the granted
reply and write it to the client. -/
def finishGranted (env : Env) (data : List Nat) (ws : List (List Nat)) : ProxyResult :=
  if ¬ env.resolveOk then
    { reads := 1, parsedFrom := some data, clientWrites := ws, outcome := .err .resolveFailed }
  else
    let rep := Reply.ToBytes { Cd := Granted, Port := env.remotePort, IP := env.remoteIP }
    if env.grantedWriteOk then
      { reads := 1, parsedFrom := some data, clientWrites := ws ++ [rep], outcome := .ok }
    else
      { reads := 1, parsedFrom := some data, clientWrites := ws ++ [rep],
        outcome := .err .grantedWriteFailed }

/-- Embedding of the source function `establishProxy`.  One read into a
41-byte buffer, then `ParseRequest` on the bytes read.  For CONNECT, a
dial failure writes the reject reply and then — because the source
tests `err != nil` (which holds) rather than `wErr != nil` — calls
`remote.Close()` on the nil connection returned by `establishConnect`,
a runtime panic (`Outcome.crashed`).  For BIND, a failure writes the
reject reply and returns the bind error, unless that write itself fails,
in which case the nil `remote.Close()` panics likewise. -/
def establishProxyModel (env : Env) : ProxyResult :=
  match env.firstRead with
  | none => { reads := 1, parsedFrom := none, clientWrites := [], outcome := .err .readFailed }
  | some chunk =>
    let data := chunk.take 41
    match ParseRequest data with
    | .error e =>
      { reads := 1, parsedFrom := some data, clientWrites := [],
        outcome := .err (.parseFailed e) }
    | .ok req =>
      if req.Cmd = CmdConnect then
        if env.dialOk then finishGranted env data []
        else
          { reads := 1, parsedFrom := some data, clientWrites := [rejectReplyBytes],
            outcome := .crashed }
      else if req.Cmd = CmdBind then
        match establishBindModel env with
        | (ws, .ok _) => finishGranted env data ws
        | (ws, .error _) =>
          if env.rejectWriteOk then
            { reads := 1, parsedFrom := some data, clientWrites := ws ++ [rejectReplyBytes],
              outcome := .err .bindFailed }
          else
            { reads := 1, parsedFrom := some data, clientWrites := ws ++ [rejectReplyBytes],
              outcome := .crashed }
      else
        { reads := 1, parsedFrom := some data, clientWrites := [],
          outcome := .err .unexpectedCommand }

/-- Session environment with a CONNECT request for 8.8.8.8:80 whose
single dial attempt fails; every other network primitive succeeds. -/
def envConnectFail : Env :=
  { firstRead := some [4, 1, 0, 80, 8, 8, 8, 8, 0], dialOk := false,
    listenOk := true, bindResolveOk := true, boundPort := 4000,
    firstReplyWriteOk := true, inboundArrives := true, rejectWriteOk := true,
    resolveOk := true, remotePort := 5000, remoteIP := [10, 0, 0, 1],
    grantedWriteOk := true }

/-- Session environment with a BIND request for 8.8.8.8:80 in which the
listener is created on port 4000 and the first reply is delivered, but no
inbound connection arrives within the 120-second limit; every write to
the client succeeds. -/
def envBindTimeout : Env :=
  { firstRead := some [4, 2, 0, 80, 8, 8, 8, 8, 0], dialOk := true,
    listenOk := true, bindResolveOk := true, boundPort := 4000,
    firstReplyWriteOk := true, inboundArrives := false, rejectWriteOk := true,
    resolveOk := true, remotePort := 5000, remoteIP := [10, 0, 0, 1],
    grantedWriteOk := true }

/-- Unfolding equation of `ParseRequest` on an input with at least eight
bytes, with the pattern match reduced. -/
theorem ParseRequest_cons (b0 b1 b2 b3 b4 b5 b6 b7 : Nat) (rest : List Nat) :
    ParseRequest (b0 :: b1 :: b2 :: b3 :: b4 :: b5 :: b6 :: b7 :: rest) =
      (if (b0 :: b1 :: b2 :: b3 :: b4 :: b5 :: b6 :: b7 :: rest).length < 9 then
        .error .MalformedRequest
      else if b0 ≠ Version4 then .error .UnsupportedVersion
      else if b1 ≠ CmdConnect ∧ b1 ≠ CmdBind then .error .UnsupportedCommand
      else if b4 = 0 ∧ b5 = 0 ∧ b6 = 0 ∧ b7 ≠ 0 then
        if (rest.splitOn NullByte).length ≠ 3 then .error .MalformedExtendedRequest
        else .ok { Version := Version4, Cmd := b1, Port := b2 * 256 + b3,
                   Address := (rest.splitOn NullByte).getD 1 [] ++ [58] ++
                              itoaBytes (b2 * 256 + b3),
                   IsV4A := true, UserId := (rest.splitOn NullByte).getD 0 [] }
      else
        .ok { Version := Version4, Cmd := b1, Port := b2 * 256 + b3,
              Address := ipv4String b4 b5 b6 b7 ++ [58] ++ itoaBytes (b2 * 256 + b3),
              IsV4A := false, UserId := rest.dropLast }) := rfl

/-- Claim C7: every input of fewer than 9 bytes fails with
`MalformedRequest`. -/
theorem parse_short_input_malformed (b : List Nat) (h : b.length < 9) :
    ParseRequest b = .error .MalformedRequest := by
  unfold ParseRequest
  rw [if_pos h]

/-- Witness for C7 at the empty input. -/
theorem parse_short_input_malformed_witness :
    ([] : List Nat).length < 9 ∧ ParseRequest [] = .error .MalformedRequest :=
  ⟨by decide, parse_short_input_malformed [] (by decide)⟩

/-- Counterexample to C8 as stated: the one-byte input `[0x05]` has a
version byte different from 0x04, yet `ParseRequest` fails with
`MalformedRequest` (the length check fires first), not with
`UnsupportedVersion`. -/
theorem parse_bad_version_short_counterexample :
    ([ (5 : Nat) ].getD 0 0 ≠ Version4) ∧
    ParseRequest [5] = .error .MalformedRequest ∧
    ParseRequest [5] ≠ .error .UnsupportedVersion := by
  refine ⟨by decide, rfl, fun h => ?_⟩
  have h3 := Except.error.inj
    ((rfl : ParseRequest [5] = Except.error ParseError.MalformedRequest).symm.trans h)
  exact absurd h3 (by decide)

/-- Claim C8 (amended): every input of at least 9 bytes whose version
byte is not 0x04 fails with `UnsupportedVersion`. -/
theorem parse_bad_version_error (b : List Nat) (hlen : 9 ≤ b.length)
    (hv : b.getD 0 0 ≠ Version4) :
    ParseRequest b = .error .UnsupportedVersion := by
  match b with
  | b0 :: b1 :: b2 :: b3 :: b4 :: b5 :: b6 :: b7 :: rest =>
    simp only [List.getD_cons_zero] at hv
    rw [ParseRequest_cons, if_neg (by simp at hlen ⊢; omega), if_pos hv]

/-- Witness for C8 (amended) at a 9-byte request with version byte 0x05. -/
theorem parse_bad_version_error_witness :
    9 ≤ ([5, 1, 0, 80, 1, 2, 3, 4, 0] : List Nat).length ∧
    ParseRequest [5, 1, 0, 80, 1, 2, 3, 4, 0] = .error .UnsupportedVersion :=
  ⟨by decide, parse_bad_version_error [5, 1, 0, 80, 1, 2, 3, 4, 0] (by decide) (by decide)⟩

/-- Claim C5: on an input of at least 9 bytes with valid version and
command whose bytes 4, 5 and 6 are zero and byte 7 non-zero,
`ParseRequest` takes the domain-name-extension (SOCKS 4A) path: the
bytes from offset 8 onward must split on NUL into exactly three fields,
any other split count failing with `MalformedExtendedRequest`; on
success the request is marked extended and its address is the domain
name (second field) joined to the decimal port by a colon, whatever the
identity field (first field) contains, including the empty string. -/
theorem parse_extended_form (b0 b1 b2 b3 b7 : Nat) (rest : List Nat)
    (hne : rest ≠ []) (hv : b0 = Version4) (hc : b1 = CmdConnect ∨ b1 = CmdBind)
    (h7 : b7 ≠ 0) :
    ((rest.splitOn NullByte).length = 3 →
      ParseRequest (b0 :: b1 :: b2 :: b3 :: 0 :: 0 :: 0 :: b7 :: rest) =
        .ok { Version := Version4, Cmd := b1, Port := b2 * 256 + b3,
              Address := (rest.splitOn NullByte).getD 1 [] ++ [58] ++
                         itoaBytes (b2 * 256 + b3),
              IsV4A := true, UserId := (rest.splitOn NullByte).getD 0 [] }) ∧
    ((rest.splitOn NullByte).length ≠ 3 →
      ParseRequest (b0 :: b1 :: b2 :: b3 :: 0 :: 0 :: 0 :: b7 :: rest) =
        .error .MalformedExtendedRequest) := by
  have hrlen : 1 ≤ rest.length := List.length_pos.mpr hne
  have hnine : ¬ (b0 :: b1 :: b2 :: b3 :: 0 :: 0 :: 0 :: b7 :: rest).length < 9 := by
    simp only [List.length_cons]
    omega
  have hcmd : ¬ (b1 ≠ CmdConnect ∧ b1 ≠ CmdBind) := by
    rcases hc with h | h <;> simp [h]
  refine ⟨fun h3 => ?_, fun h3 => ?_⟩ <;>
    rw [ParseRequest_cons, if_neg hnine, if_neg (by simp [hv]), if_neg hcmd,
        if_pos ⟨rfl, rfl, rfl, h7⟩]
  · rw [if_neg (by simp [h3])]
  · rw [if_pos h3]

/-- Witness for C5 at the extended request
`[4, 1, 0, 80, 0, 0, 0, 1, 0, 104, 105, 0]`: the identity field is
empty, the domain name is `hi`, and the recovered address is
`hi:80`; and at the same header followed by `[104]` (a single
non-NUL byte, splitting into one field) the parse fails with
`MalformedExtendedRequest`. -/
theorem parse_extended_form_witness :
    (([0, 104, 105, 0] : List Nat) ≠ [] ∧
     (([0, 104, 105, 0] : List Nat).splitOn NullByte).length = 3 ∧
     ParseRequest [4, 1, 0, 80, 0, 0, 0, 1, 0, 104, 105, 0] =
       .ok { Version := Version4, Cmd := 1, Port := 80,
             Address := [104, 105, 58, 56, 48], IsV4A := true, UserId := [] }) ∧
    (([104] : List Nat) ≠ [] ∧
     (([104] : List Nat).splitOn NullByte).length ≠ 3 ∧
     ParseRequest [4, 1, 0, 80, 0, 0, 0, 1, 104] =
       .error .MalformedExtendedRequest) := by
  refine ⟨⟨by decide, by decide, ?_⟩, ⟨by decide, by decide, ?_⟩⟩
  · have h := (parse_extended_form 4 1 0 80 1 [0, 104, 105, 0]
      (by decide) rfl (Or.inl rfl) (by decide)).1 (by decide)
    exact h.trans (congrArg Except.ok (by decide))
  · exact (parse_extended_form 4 1 0 80 1 [104]
      (by decide) rfl (Or.inl rfl) (by decide)).2 (by decide)

/-- Claim C6: on a valid literal-form request — at least 9 bytes, valid
version and command, bytes 4–7 not matching the extension sentinel —
`ParseRequest` succeeds and recovers exactly the big-endian port of
bytes 2–3 and the dotted rendering of the IPv4 address in bytes 4–7,
joined by a colon. -/
theorem parse_literal_form_address (b0 b1 b2 b3 b4 b5 b6 b7 : Nat) (rest : List Nat)
    (hne : rest ≠ []) (hv : b0 = Version4) (hc : b1 = CmdConnect ∨ b1 = CmdBind)
    (hs : ¬ (b4 = 0 ∧ b5 = 0 ∧ b6 = 0 ∧ b7 ≠ 0)) :
    ∃ req, ParseRequest (b0 :: b1 :: b2 :: b3 :: b4 :: b5 :: b6 :: b7 :: rest) =
        .ok req ∧
      req.Port = b2 * 256 + b3 ∧
      req.Address = ipv4String b4 b5 b6 b7 ++ [58] ++ itoaBytes (b2 * 256 + b3) := by
  have hrlen : 1 ≤ rest.length := List.length_pos.mpr hne
  have hnine : ¬ (b0 :: b1 :: b2 :: b3 :: b4 :: b5 :: b6 :: b7 :: rest).length < 9 := by
    simp only [List.length_cons]
    omega
  have hcmd : ¬ (b1 ≠ CmdConnect ∧ b1 ≠ CmdBind) := by
    rcases hc with h | h <;> simp [h]
  refine ⟨{ Version := Version4, Cmd := b1, Port := b2 * 256 + b3,
            Address := ipv4String b4 b5 b6 b7 ++ [58] ++ itoaBytes (b2 * 256 + b3),
            IsV4A := false, UserId := rest.dropLast }, ?_, rfl, rfl⟩
  rw [ParseRequest_cons, if_neg hnine, if_neg (by simp [hv]), if_neg hcmd, if_neg hs]

/-- Witness for C6 at the request `[4, 1, 1, 44, 192, 168, 0, 1, 0]`:
port `0x012c = 300` and address `192.168.0.1:300`. -/
theorem parse_literal_form_address_witness :
    ([0] : List Nat) ≠ [] ∧
    ¬ ((192 : Nat) = 0 ∧ (168 : Nat) = 0 ∧ (0 : Nat) = 0 ∧ (1 : Nat) ≠ 0) ∧
    ∃ req, ParseRequest [4, 1, 1, 44, 192, 168, 0, 1, 0] = .ok req ∧
      req.Port = 1 * 256 + 44 ∧
      req.Address = ipv4String 192 168 0 1 ++ [58] ++ itoaBytes (1 * 256 + 44) :=
  ⟨by decide, by decide,
   parse_literal_form_address 4 1 1 44 192 168 0 1 [0]
     (by decide) rfl (Or.inl rfl) (by decide)⟩

/-- Claim C10: on every input of length `n ≥ 9` with version 0x04,
command CONNECT or BIND, and bytes 4–7 not matching the extension
sentinel, `ParseRequest` succeeds and returns as identity exactly bytes
8 through `n − 2`: the final byte is dropped unconditionally — the
parser never checks that it is a NUL terminator. -/
theorem parse_literal_form_user_id (b : List Nat) (hlen : 9 ≤ b.length)
    (hv : b.getD 0 0 = Version4)
    (hc : b.getD 1 0 = CmdConnect ∨ b.getD 1 0 = CmdBind)
    (hs : ¬ (b.getD 4 0 = 0 ∧ b.getD 5 0 = 0 ∧ b.getD 6 0 = 0 ∧ b.getD 7 0 ≠ 0)) :
    ∃ req, ParseRequest b = .ok req ∧
      req.UserId = (b.drop 8).dropLast ∧
      req.UserId = (b.drop 8).take (b.length - 9) := by
  match b with
  | b0 :: b1 :: b2 :: b3 :: b4 :: b5 :: b6 :: b7 :: rest =>
    have hv9 : b0 = Version4 := hv
    have hc9 : b1 = CmdConnect ∨ b1 = CmdBind := hc
    have hs9 : ¬ (b4 = 0 ∧ b5 = 0 ∧ b6 = 0 ∧ b7 ≠ 0) := hs
    have hrlen : 1 ≤ rest.length := by
      simp only [List.length_cons] at hlen
      omega
    have hnine : ¬ (b0 :: b1 :: b2 :: b3 :: b4 :: b5 :: b6 :: b7 :: rest).length < 9 := by
      simp only [List.length_cons]
      omega
    have hcmd : ¬ (b1 ≠ CmdConnect ∧ b1 ≠ CmdBind) := by
      rcases hc9 with h | h <;> simp [h]
    refine ⟨{ Version := Version4, Cmd := b1, Port := b2 * 256 + b3,
              Address := ipv4String b4 b5 b6 b7 ++ [58] ++ itoaBytes (b2 * 256 + b3),
              IsV4A := false, UserId := rest.dropLast }, ?_, rfl, ?_⟩
    · rw [ParseRequest_cons, if_neg hnine, if_neg (by simp [hv9]), if_neg hcmd,
          if_neg hs9]
    · show rest.dropLast = rest.take ((b0 :: b1 :: b2 :: b3 :: b4 :: b5 :: b6 :: b7 :: rest).length - 9)
      rw [List.dropLast_eq_take]
      congr 1

/-- Witness for C10 at the request `[4, 2, 0, 80, 1, 2, 3, 4, 65, 66]`:
the final byte 66 is not a NUL terminator, yet the parse succeeds and
the identity is `[65]`, bytes 8 through 8. -/
theorem parse_literal_form_user_id_witness :
    9 ≤ ([4, 2, 0, 80, 1, 2, 3, 4, 65, 66] : List Nat).length ∧
    ∃ req, ParseRequest [4, 2, 0, 80, 1, 2, 3, 4, 65, 66] = .ok req ∧
      req.UserId = (([4, 2, 0, 80, 1, 2, 3, 4, 65, 66] : List Nat).drop 8).dropLast ∧
      req.UserId = (([4, 2, 0, 80, 1, 2, 3, 4, 65, 66] : List Nat).drop 8).take
        (([4, 2, 0, 80, 1, 2, 3, 4, 65, 66] : List Nat).length - 9) :=
  ⟨by decide,
   parse_literal_form_user_id [4, 2, 0, 80, 1, 2, 3, 4, 65, 66]
     (by decide) rfl (Or.inr rfl) (by decide)⟩

/-- Counterexample to C3 as stated: the reject reply that the server
itself builds (`Reply{Cd: RejectOrFailure}`, nil IP) encodes to 4 bytes,
not 8, because `To4` of the nil IP contributes nothing. -/
theorem toBytes_nil_ip_counterexample :
    Reply.ToBytes { Cd := RejectOrFailure, Port := 0, IP := [] } = [0, 0x5b, 0, 0] ∧
    (Reply.ToBytes { Cd := RejectOrFailure, Port := 0, IP := [] }).length ≠ 8 := by
  refine ⟨?_, ?_⟩ <;> decide

/-- Claim C3 (amended): for every reply whose IP has a 4-byte IPv4 form,
`ToBytes` returns exactly 8 bytes: a zero byte, the normalized status
byte, the port truncated to 16 bits in big-endian order, and the 4
address bytes; a status byte outside the four defined codes is replaced
by `RejectOrFailure` (0x5b).  For a reply whose IP lacks a 4-byte form
(such as the nil IP), only the first 4 bytes are produced. -/
theorem toBytes_shape (r : Reply) (h : (To4 r.IP).length = 4) :
    r.ToBytes = [0, sanitizeCd r.Cd, (r.Port % 65536).toNat / 256,
                 (r.Port % 65536).toNat % 256] ++ To4 r.IP ∧
    r.ToBytes.length = 8 ∧
    (¬ (r.Cd = Granted ∨ r.Cd = RejectOrFailure ∨ r.Cd = RejectNoIdentd ∨
        r.Cd = RejectWrongUserId) → sanitizeCd r.Cd = RejectOrFailure) := by
  refine ⟨rfl, ?_, ?_⟩
  · simp [Reply.ToBytes, h]
  · intro hcd
    push_neg at hcd
    unfold sanitizeCd
    rw [if_pos ⟨hcd.1, hcd.2.1, hcd.2.2.1, hcd.2.2.2⟩]

/-- Witness for C3 (amended): a reply with the undefined status byte
0x99, port 777 and IPv4 address 1.2.3.4 encodes to the 8 bytes
`[0, 0x5b, 3, 9, 1, 2, 3, 4]`. -/
theorem toBytes_shape_witness :
    (To4 ([1, 2, 3, 4] : List Nat)).length = 4 ∧
    (Reply.ToBytes { Cd := 0x99, Port := 777, IP := [1, 2, 3, 4] } =
       [0, sanitizeCd 0x99, (((777 : Int) % 65536).toNat) / 256,
        (((777 : Int) % 65536).toNat) % 256] ++ To4 [1, 2, 3, 4] ∧
     (Reply.ToBytes { Cd := 0x99, Port := 777, IP := [1, 2, 3, 4] }).length = 8 ∧
     (¬ ((0x99 : Nat) = Granted ∨ (0x99 : Nat) = RejectOrFailure ∨
         (0x99 : Nat) = RejectNoIdentd ∨ (0x99 : Nat) = RejectWrongUserId) →
        sanitizeCd 0x99 = RejectOrFailure)) :=
  ⟨by decide, toBytes_shape { Cd := 0x99, Port := 777, IP := [1, 2, 3, 4] } (by decide)⟩

/-- In every branch, the shared success tail performs no further read
and keeps the decoded bytes unchanged. -/
theorem finishGranted_reads (env : Env) (data : List Nat) (ws : List (List Nat)) :
    (finishGranted env data ws).reads = 1 ∧
    (finishGranted env data ws).parsedFrom = some data := by
  unfold finishGranted
  split
  · exact ⟨rfl, rfl⟩
  · by_cases h : env.grantedWriteOk = true <;> simp [h]

/-- Claim C1 (code bug): a CONNECT session whose dial fails does not stay
session-local.  `establishProxy` writes the reject reply, then — because
the source tests `err != nil`, which holds, instead of `wErr != nil` —
calls `Close` on the nil connection returned by the failed
`establishConnect`, a runtime panic.  The panic occurs in the
`go s.handleConn(conn)` goroutine and no `recover` exists in the
package, so the whole server process terminates, contradicting the
claim that the process never terminates due to a session-level
failure. -/
theorem connect_dial_failure_escapes_session (env : Env) (chunk : List Nat)
    (req : Request) (hr : env.firstRead = some chunk)
    (hp : ParseRequest (chunk.take 41) = .ok req)
    (hcmd : req.Cmd = CmdConnect) (hd : env.dialOk = false) :
    (establishProxyModel env).outcome = .crashed := by
  simp [establishProxyModel, hr, hp, hcmd, hd]

/-- Witness for C1: the concrete CONNECT-with-failed-dial session
environment ends in the runtime panic. -/
theorem connect_dial_failure_escapes_session_witness :
    envConnectFail.firstRead = some [4, 1, 0, 80, 8, 8, 8, 8, 0] ∧
    (establishProxyModel envConnectFail).outcome = .crashed :=
  ⟨rfl, connect_dial_failure_escapes_session envConnectFail
     [4, 1, 0, 80, 8, 8, 8, 8, 0]
     { Version := 4, Cmd := 1, Port := 80,
       Address := [56, 46, 56, 46, 56, 46, 56, 58, 56, 48],
       IsV4A := false, UserId := [] }
     rfl (by rfl) rfl rfl⟩

/-- Claim C2 (code bug): on a CONNECT dial failure the handler does
write the reject reply (best-effort), but it never reports the dial
error: the mistyped check `err != nil` (instead of `wErr != nil`) always
fires, `remote.Close()` dereferences the nil connection, and the session
ends in a runtime panic rather than in any error return — in particular
the dial-failure outcome is never produced. -/
theorem connect_dial_failure_error_masked (env : Env) (chunk : List Nat)
    (req : Request) (hr : env.firstRead = some chunk)
    (hp : ParseRequest (chunk.take 41) = .ok req)
    (hcmd : req.Cmd = CmdConnect) (hd : env.dialOk = false) :
    (establishProxyModel env).clientWrites = [rejectReplyBytes] ∧
    (establishProxyModel env).outcome = .crashed ∧
    (establishProxyModel env).outcome ≠ .err .connectFailed := by
  refine ⟨?_, ?_, ?_⟩ <;> simp [establishProxyModel, hr, hp, hcmd, hd]

/-- Witness for C2: in the concrete CONNECT-with-failed-dial session the
reject reply is the only client write and no error is returned. -/
theorem connect_dial_failure_error_masked_witness :
    envConnectFail.firstRead = some [4, 1, 0, 80, 8, 8, 8, 8, 0] ∧
    ((establishProxyModel envConnectFail).clientWrites = [rejectReplyBytes] ∧
     (establishProxyModel envConnectFail).outcome = .crashed ∧
     (establishProxyModel envConnectFail).outcome ≠ .err .connectFailed) :=
  ⟨rfl, connect_dial_failure_error_masked envConnectFail
     [4, 1, 0, 80, 8, 8, 8, 8, 0]
     { Version := 4, Cmd := 1, Port := 80,
       Address := [56, 46, 56, 46, 56, 46, 56, 58, 56, 48],
       IsV4A := false, UserId := [] }
     rfl (by rfl) rfl rfl⟩

/-- Counterexample to C4 as stated: in the concrete BIND session whose
inbound wait times out (listener on port 4000, first reply delivered,
every client write succeeding), the handler writes a second message —
the reject reply `[0, 0x5b, 0, 0]` — after the first reply
`[0, 0x5a, 15, 160]`, so the client connection is not closed with only
the first reply ever sent. -/
theorem bind_timeout_second_message_counterexample :
    (establishProxyModel envBindTimeout).clientWrites =
      [[0, 0x5a, 15, 160], [0, 0x5b, 0, 0]] ∧
    (establishProxyModel envBindTimeout).clientWrites.length ≠ 1 := by
  refine ⟨?_, ?_⟩ <;> decide

/-- Claim C4 (amended): in every BIND session in which the listener and
first reply succeed but no inbound connection arrives within the
120-second limit, the listener is closed so the accept fails and the
session aborts with the bind error — after writing one additional
message to the client, a REJECTED_OR_FAILED reply (best-effort),
following the first reply. -/
theorem bind_timeout_aborts_with_reject (env : Env) (chunk : List Nat)
    (req : Request) (hr : env.firstRead = some chunk)
    (hp : ParseRequest (chunk.take 41) = .ok req)
    (hcmd : req.Cmd = CmdBind) (hl : env.listenOk = true)
    (hbr : env.bindResolveOk = true) (hw1 : env.firstReplyWriteOk = true)
    (hto : env.inboundArrives = false) (hw2 : env.rejectWriteOk = true) :
    (establishProxyModel env).outcome = .err .bindFailed ∧
    (establishProxyModel env).clientWrites =
      [bindFirstReplyBytes env.boundPort, rejectReplyBytes] := by
  refine ⟨?_, ?_⟩ <;>
    simp [establishProxyModel, establishBindModel, hr, hp, hcmd, hl, hbr,
          hw1, hto, hw2, CmdConnect, CmdBind]

/-- Witness for C4 (amended) at the concrete BIND-timeout session. -/
theorem bind_timeout_aborts_with_reject_witness :
    envBindTimeout.firstRead = some [4, 2, 0, 80, 8, 8, 8, 8, 0] ∧
    ((establishProxyModel envBindTimeout).outcome = .err .bindFailed ∧
     (establishProxyModel envBindTimeout).clientWrites =
       [bindFirstReplyBytes envBindTimeout.boundPort, rejectReplyBytes]) :=
  ⟨rfl, bind_timeout_aborts_with_reject envBindTimeout
     [4, 2, 0, 80, 8, 8, 8, 8, 0]
     { Version := 4, Cmd := 2, Port := 80,
       Address := [56, 46, 56, 46, 56, 46, 56, 58, 56, 48],
       IsV4A := false, UserId := [] }
     rfl (by rfl) rfl rfl rfl rfl rfl rfl⟩

/-- Claim C9: whenever the transport delivers a first fragment, the
session handler performs exactly one read into the 41-byte buffer and
hands exactly the first fragment's 41-byte prefix to the decoder — a
longer message is decoded from its prefix alone, a fragmented one from
its first fragment alone, and no further read is attempted. -/
theorem single_read_then_decode (env : Env) (chunk : List Nat)
    (hr : env.firstRead = some chunk) :
    (establishProxyModel env).reads = 1 ∧
    (establishProxyModel env).parsedFrom = some (chunk.take 41) := by
  simp only [establishProxyModel, hr]
  rcases ParseRequest (chunk.take 41) with e | req
  · exact ⟨rfl, rfl⟩
  · simp only
    by_cases h1 : req.Cmd = CmdConnect
    · simp only [h1, if_pos rfl]
      by_cases h2 : env.dialOk = true
      · simp only [h2, if_true]
        exact finishGranted_reads env (chunk.take 41) []
      · simp [h2]
    · simp only [if_neg h1]
      by_cases h3 : req.Cmd = CmdBind
      · simp only [h3, if_pos rfl]
        rcases establishBindModel env with ⟨ws, r | u⟩
        · by_cases h4 : env.rejectWriteOk = true <;> simp [h4]
        · exact finishGranted_reads env (chunk.take 41) ws
      · simp [h1, h3]

/-- Witness for C9: the concrete CONNECT session performs one read and
decodes the 9 delivered bytes. -/
theorem single_read_then_decode_witness :
    envConnectFail.firstRead = some [4, 1, 0, 80, 8, 8, 8, 8, 0] ∧
    ((establishProxyModel envConnectFail).reads = 1 ∧
     (establishProxyModel envConnectFail).parsedFrom =
       some (([4, 1, 0, 80, 8, 8, 8, 8, 0] : List Nat).take 41)) :=
  ⟨rfl, single_read_then_decode envConnectFail [4, 1, 0, 80, 8, 8, 8, 8, 0] rfl⟩

end Socks4
